import Mathlib

/-!
Interactive-face node: ring-buffer cursor and per-tick face tracking.

A shallow embedding of `ros_interface.cpp` (class `ROSInterface`):

* the cursor arithmetic of `mainFunc`, `fetchInThread`, `estimateInThread`
  and `displayInThread` over the three-slot frame buffer `buff_`;
* the post-processing loop of `estimateInThread` (lines 320-387), which turns
  the detections of one frame into `Face` objects and result records;
* `publishInThread`.

Frames, detector networks and the visualizer are external; what the inference
task observes of them in one tick is the input record `TickInput`.
-/

namespace InteractiveFace

/-! ## Ring buffer cursor -/

/-- Cursor update at the top of the loop of `mainFunc` (line 446):
`buffIndex_ = (buffIndex_ + 1) % 3`. -/
def nextBuffIndex (buffIndex_ : Nat) : Nat := (buffIndex_ + 1) % 3

/-- Slot written by `fetchInThread` (line 270): `buff_[buffIndex_]`. -/
def fetchSlot (buffIndex_ : Nat) : Nat := buffIndex_

/-- Slot shown by `displayInThread` (line 278): `buff_[(buffIndex_ + 1) % 3]`. -/
def displaySlot (buffIndex_ : Nat) : Nat := (buffIndex_ + 1) % 3

/-- Slot read, and drawn on, by `estimateInThread` (lines 292, 332, 388):
`buff_[(buffIndex_+2)%3]`. -/
def estimateSlot (buffIndex_ : Nat) : Nat := (buffIndex_ + 2) % 3

/-! ## Rectangles -/

/-- The integer rectangle `cv::Rect`. Coordinates are unbounded integers: the
32-bit range of `int` is not modelled. -/
structure Rect where
  x : Int
  y : Int
  width : Int
  height : Int
deriving DecidableEq, Repr

/-- The operator `a & b` of `cv::Rect` (intersection; the empty rectangle
`Rect()` when the two do not overlap). -/
def Rect.inter (a b : Rect) : Rect :=
  let x1 := max a.x b.x
  let y1 := max a.y b.y
  let w := min (a.x + a.width) (b.x + b.width) - x1
  let h := min (a.y + a.height) (b.y + b.height) - y1
  if w ≤ 0 ∨ h ≤ 0 then ⟨0, 0, 0, 0⟩ else ⟨x1, y1, w, h⟩

/-- The member `area()` of `cv::Rect`. -/
def Rect.area (r : Rect) : Int := r.width * r.height

/-! ## Single-precision values

Finite values are exact rationals (rounding is not modelled); the exceptional
values that a division by zero produces are. Zero is unsigned. -/

/-- A `float`: a finite value, plus or minus infinity, or not-a-number. -/
inductive F32 where
  | fin (q : ℚ)
  | pinf
  | ninf
  | nan
deriving DecidableEq

namespace F32

/-- Subtraction `a - b`. -/
def sub : F32 → F32 → F32
  | fin a, fin b => fin (a - b)
  | fin _, pinf => ninf
  | fin _, ninf => pinf
  | pinf, fin _ => pinf
  | pinf, ninf => pinf
  | ninf, fin _ => ninf
  | ninf, pinf => ninf
  | _, _ => nan

/-- The function `std::abs`. -/
def abs : F32 → F32
  | fin a => fin |a|
  | pinf => pinf
  | ninf => pinf
  | nan => nan

/-- Division `a / b`: a finite nonzero value over zero is an infinity, zero
over zero is not-a-number; nothing traps. -/
def div : F32 → F32 → F32
  | fin a, fin b =>
    if b = 0 then (if a = 0 then nan else if 0 < a then pinf else ninf)
    else fin (a / b)
  | fin _, pinf => fin 0
  | fin _, ninf => fin 0
  | pinf, fin b => if 0 ≤ b then pinf else ninf
  | ninf, fin b => if 0 ≤ b then ninf else pinf
  | _, _ => nan

/-- Comparison `a > b`; false as soon as one side is not-a-number. -/
def gt : F32 → F32 → Bool
  | fin a, fin b => decide (b < a)
  | pinf, fin _ => true
  | pinf, ninf => true
  | fin _, ninf => true
  | _, _ => false

/-- The literal `0.07f`: the single-precision value nearest to 0.07. -/
def threshold : F32 := fin (9395241 / 134217728)

end F32

/-- The test of line 335,
`(std::abs(intensity_mean - face->_intensity_mean) / face->_intensity_mean) > 0.07f`,
with `stored` the value `face->_intensity_mean`. For finite operands and a
non-zero divisor this is the test on the exact quotient; the single-precision
quotient of the code can differ from it by a rounding error, so the two may
disagree for a relative change within rounding distance of the threshold. -/
def brightnessChanged (intensity_mean stored : F32) : Bool :=
  F32.gt (F32.div (F32.abs (F32.sub intensity_mean stored)) stored) F32.threshold

/-! ## Detector outputs -/

/-- Element of `ageGenderDetector` (fields read at lines 356-357). -/
structure AgeGenderResult where
  maleProb : F32
  age : F32
deriving DecidableEq

/-- Element of `headPoseDetector` (fields read at lines 375-377). -/
structure HeadPoseResult where
  angle_r : F32
  angle_p : F32
  angle_y : F32
deriving DecidableEq

/-- What the inference task sees of a secondary detector after `wait()`:
`enabled()`, `maxBatch` and the indexed results `detector[i]`. The detector
classes are declared outside `ros_interface.cpp`; `maxBatch` is compared with
the `size_t` index `i` and is taken as a natural number. -/
structure Detector (R : Type) where
  enabled : Bool
  maxBatch : Nat
  result : Nat → R

/-- Element of `faceDetector.results`; only `location` is read. -/
structure DetectionResult where
  location : Rect
deriving DecidableEq

/-! ## Faces -/

/-- Modelled from the spec: the class `Face` is declared in a header outside
`ros_interface.cpp`. Per the design (Face entity) it is a plain mutable record:
identity, rectangle, brightness, and per-attribute enabled flags with attribute
payloads. `_location` and `_intensity_mean` are the members named at lines
335-346. A `Face::Ptr` is modelled by the record it points to: in the loop a
Face is written through its pointer only after it has left `prev_faces` or
right after `make_shared`, so no other live pointer sees the write. -/
structure Face where
  _id : Nat
  _location : Rect
  _intensity_mean : F32
  _isAgeGenderEnabled : Bool
  _isEmotionsEnabled : Bool
  _isHeadPoseEnabled : Bool
  _isLandmarksEnabled : Bool
  ageGender : Option AgeGenderResult
  emotions : Option (List F32)
  headPose : Option HeadPoseResult
  landmarks : Option (List F32)
deriving DecidableEq

namespace Face

/-- Modelled from the spec: the constructor `Face(id, rect)` (identity assigned
at creation, current location rectangle); every attribute starts disabled and
empty. -/
def create (id : Nat) (rect : Rect) : Face :=
  { _id := id, _location := rect, _intensity_mean := F32.fin 0,
    _isAgeGenderEnabled := false, _isEmotionsEnabled := false,
    _isHeadPoseEnabled := false, _isLandmarksEnabled := false,
    ageGender := none, emotions := none, headPose := none, landmarks := none }

/-- Setter `ageGenderEnable(b)`. -/
def ageGenderEnable (f : Face) (b : Bool) : Face := { f with _isAgeGenderEnabled := b }

/-- Setter `emotionsEnable(b)`. -/
def emotionsEnable (f : Face) (b : Bool) : Face := { f with _isEmotionsEnabled := b }

/-- Setter `headPoseEnable(b)`. -/
def headPoseEnable (f : Face) (b : Bool) : Face := { f with _isHeadPoseEnabled := b }

/-- Setter `landmarksEnable(b)`. -/
def landmarksEnable (f : Face) (b : Bool) : Face := { f with _isLandmarksEnabled := b }

/-- Modelled from the spec: `updateGender` then `updateAge` copy the age/gender
result into the attribute slot. -/
def updateAgeGender (f : Face) (r : AgeGenderResult) : Face := { f with ageGender := some r }

/-- Modelled from the spec: `updateEmotions` copies the emotion distribution. -/
def updateEmotions (f : Face) (r : List F32) : Face := { f with emotions := some r }

/-- Modelled from the spec: `updateHeadPose` copies the head-pose angles. -/
def updateHeadPose (f : Face) (r : HeadPoseResult) : Face := { f with headPose := some r }

/-- Modelled from the spec: `updateLandmarks` copies the landmark point set. -/
def updateLandmarks (f : Face) (r : List F32) : Face := { f with landmarks := some r }

/-- Modelled from the spec: `getAge` reads the age estimate of the slot. -/
def getAge (f : Face) : F32 :=
  match f.ageGender with
  | some r => r.age
  | none => F32.fin 0

/-- Modelled from the spec: `getHeadPose` reads the head-pose angles of the slot. -/
def getHeadPose (f : Face) : HeadPoseResult :=
  match f.headPose with
  | some r => r
  | none => ⟨F32.fin 0, F32.fin 0, F32.fin 0⟩

end Face

/-- The message `robot_vision_msgs::FaceResult`, with the fields that
`estimateInThread` assigns (lines 343-346, 359-360, 375-377) and `ymin`. -/
structure FaceResult where
  xmin : Int
  ymin : Int
  xmax : Int
  ymax : Int
  gender : String
  age : F32
  angle_r : F32
  angle_p : F32
  angle_y : F32
deriving DecidableEq

/-- Helpers of the repository that `estimateInThread` calls and whose bodies
are outside `ros_interface.cpp`. -/
structure External where
  /-- The call `matchFace(rect, prev_faces)`: a pointer into the pool, or null. -/
  matchFace : Rect → List Face → Option Face
  /-- The query `face->isMale()`. -/
  isMale : Face → Bool
  /-- The default-constructed `robot_vision_msgs::FaceResult rosFaceResult`. -/
  rosFaceResult : FaceResult

/-- A `matchFace` returns null or one of the Faces of the pool it is given. -/
def External.MatchInPool (ext : External) : Prop :=
  ∀ rect pool f, ext.matchFace rect pool = some f → f ∈ pool

/-! ## One inference tick -/

/-- Members of `ROSInterface` that the inference task reads or writes. -/
structure ROSInterface where
  buffIndex_ : Nat
  frameWidth_ : Int
  frameHeight_ : Int
  FLAG_start_infer : Bool
  FLAG_no_smooth : Bool
  FLAG_pub_message : Bool
  /-- The tracked set `faces`. -/
  faces : List Face
  /-- The list `detectionMsg.results`. -/
  detectionMsg : List FaceResult
deriving DecidableEq

/-- What one call of `estimateInThread` observes of the frame in slot
`(buffIndex_+2)%3` and of the detectors. -/
structure TickInput where
  /-- The copy `pre_frame_result` of `faceDetector.results`. -/
  pre_frame_result : List DetectionResult
  /-- The value `calcMean(buff_[(buffIndex_+2)%3](rect))`. -/
  calcMean : Rect → F32
  ageGenderDetector : Detector AgeGenderResult
  emotionsDetector : Detector (List F32)
  headPoseDetector : Detector HeadPoseResult
  facialLandmarksDetector : Detector (List F32)

/-- Variables of the loop of lines 324-387: the counter `id` (line 291), the
local list `prev_faces` (line 321), the member `faces` and
`detectionMsg.results`. The counter is a `size_t` that grows by at most one per
detection, so it never wraps within a call. -/
structure LoopState where
  id : Nat
  prev_faces : List Face
  faces : List Face
  results : List FaceResult
deriving DecidableEq

/-- Lines 329-350: choose the Face of a detection. Returns the Face, the
record `rosFaceResult` and the new values of `id` and `prev_faces`. The null
check `face == nullptr ||` short-circuits, so the brightness test is evaluated
only for a matched Face; `prev_faces.remove(face)` drops every entry equal to
the matched pointer. -/
def selectFace (ext : External) (FLAG_no_smooth : Bool) (calcMean : Rect → F32)
    (rect : Rect) (id : Nat) (prev_faces : List Face) :
    Face × FaceResult × Nat × List Face :=
  if !FLAG_no_smooth then
    let matched := ext.matchFace rect prev_faces
    let intensity_mean := calcMean rect
    let chosen : Face × Nat × List Face :=
      match matched with
      | none => (Face.create id rect, id + 1, prev_faces)
      | some face =>
        if brightnessChanged intensity_mean face._intensity_mean then
          (Face.create id rect, id + 1, prev_faces)
        else
          (face, id, prev_faces.filter (fun g => decide (g ≠ face)))
    let face := { chosen.1 with _intensity_mean := intensity_mean }
    let face := { face with _location := rect }
    let r := { ext.rosFaceResult with xmin := face._location.x }
    let r := { r with ymax := face._location.y }
    let r := { r with xmax := face._location.x + face._location.width }
    let r := { r with ymax := face._location.y + face._location.height }
    (face, r, chosen.2.1, chosen.2.2)
  else
    (Face.create id rect, ext.rosFaceResult, id + 1, prev_faces)

/-- Lines 352-384: gate each secondary attribute by
`detector.enabled() && i < detector.maxBatch` and, when the flag is set, copy
the detector result number `i` into the Face and the record. -/
def applyAttributes (ext : External) (inp : TickInput) (i : Nat)
    (face : Face) (r : FaceResult) : Face × FaceResult :=
  let face := face.ageGenderEnable
    (inp.ageGenderDetector.enabled && decide (i < inp.ageGenderDetector.maxBatch))
  let (face, r) :=
    if face._isAgeGenderEnabled then
      let ageGenderResult := inp.ageGenderDetector.result i
      let face := face.updateAgeGender ageGenderResult
      (face, { r with gender := if ext.isMale face then "Male" else "Female",
                      age := face.getAge })
    else (face, r)
  let face := face.emotionsEnable
    (inp.emotionsDetector.enabled && decide (i < inp.emotionsDetector.maxBatch))
  let face :=
    if face._isEmotionsEnabled then face.updateEmotions (inp.emotionsDetector.result i)
    else face
  let face := face.headPoseEnable
    (inp.headPoseDetector.enabled && decide (i < inp.headPoseDetector.maxBatch))
  let (face, r) :=
    if face._isHeadPoseEnabled then
      let face := face.updateHeadPose (inp.headPoseDetector.result i)
      (face, { r with angle_r := face.getHeadPose.angle_r,
                      angle_p := face.getHeadPose.angle_p,
                      angle_y := face.getHeadPose.angle_y })
    else (face, r)
  let face := face.landmarksEnable
    (inp.facialLandmarksDetector.enabled &&
      decide (i < inp.facialLandmarksDetector.maxBatch))
  let face :=
    if face._isLandmarksEnabled then
      face.updateLandmarks (inp.facialLandmarksDetector.result i)
    else face
  (face, r)

/-- Body of the loop of lines 324-387 for detection number `i`. -/
def processDetection (ext : External) (node : ROSInterface) (inp : TickInput)
    (i : Nat) (result : DetectionResult) (s : LoopState) : LoopState :=
  let rect := result.location.inter ⟨0, 0, node.frameWidth_, node.frameHeight_⟩
  let sel := selectFace ext node.FLAG_no_smooth inp.calcMean rect s.id s.prev_faces
  let out := applyAttributes ext inp i sel.1 sel.2.1
  { id := sel.2.2.1, prev_faces := sel.2.2.2,
    faces := s.faces ++ [out.1], results := s.results ++ [out.2] }

/-- The loop `for (size_t i = 0; i < pre_frame_result.size(); i++)`, from
index `i` over the detections still to visit. -/
def estimateLoop (ext : External) (node : ROSInterface) (inp : TickInput) :
    Nat → List DetectionResult → LoopState → LoopState
  | _, [], s => s
  | i, result :: rest, s =>
    estimateLoop ext node inp (i + 1) rest (processDetection ext node inp i result s)

/-- Loop state on entry (lines 291, 321, 322): `size_t id = 0`, an empty
`prev_faces`, `faces.clear()`. -/
def loopEntry (node : ROSInterface) : LoopState :=
  { id := 0, prev_faces := [], faces := [], results := node.detectionMsg }

/-- The function `publishInThread` (lines 488-492): returns the node and the
message handed to the publisher, if any. -/
def publishInThread (node : ROSInterface) : ROSInterface × Option (List FaceResult) :=
  if node.FLAG_pub_message && !node.detectionMsg.isEmpty then
    ({ node with detectionMsg := [] }, some node.detectionMsg)
  else (node, none)

/-- The node after the post-processing loop of `estimateInThread`, before
`publishInThread` is called. -/
def inferFaces (ext : External) (node : ROSInterface) (inp : TickInput) : ROSInterface :=
  let s := estimateLoop ext node inp 0 inp.pre_frame_result (loopEntry node)
  { node with faces := s.faces, detectionMsg := s.results }

/-- The function `estimateInThread` (lines 289-398). -/
def estimateInThread (ext : External) (node : ROSInterface) (inp : TickInput) :
    ROSInterface × Option (List FaceResult) :=
  if node.FLAG_start_infer then publishInThread (inferFaces ext node inp)
  else (node, none)

/-- One iteration of the loop of `mainFunc` (lines 444-469), as far as the
cursor and the inference task go. -/
def mainFuncTick (ext : External) (node : ROSInterface) (inp : TickInput) : ROSInterface :=
  (estimateInThread ext { node with buffIndex_ := nextBuffIndex node.buffIndex_ } inp).1

/-- Successive iterations of the loop of `mainFunc`, one per input. -/
def mainFunc (ext : External) : ROSInterface → List TickInput → ROSInterface
  | node, [] => node
  | node, inp :: rest => mainFunc ext (mainFuncTick ext node inp) rest

/-! ## A concrete instance of the external helpers -/

/-- One step of `matchFace`: keep the Face whose rectangle overlaps `rect`
most, the overlap being strictly larger than the best so far. -/
def matchFaceStep (rect : Rect) (best : Option Face × Int) (f : Face) : Option Face × Int :=
  let overlap := (rect.inter f._location).area
  if best.2 < overlap then (some f, overlap) else best

/-- Modelled from the spec: `matchFace` is defined outside `ros_interface.cpp`.
Per the design (FaceTracker) it finds a previous Face whose rectangle best
matches the current box (overlap-based matching) among the not-yet-claimed
previous Faces, and none when no Face of the pool overlaps the box. -/
def matchFace (rect : Rect) (pool : List Face) : Option Face :=
  (pool.foldl (matchFaceStep rect) (none, 0)).1

/-- Modelled from the spec: `isMale` reads the gender probability of the slot. -/
def isMale (f : Face) : Bool :=
  match f.ageGender with
  | some r => F32.gt r.maleProb (F32.fin (1 / 2))
  | none => false

/-- The helpers used in the examples: overlap matching and a zero-initialised
result message. -/
def stdExternal : External :=
  { matchFace := matchFace, isMale := isMale,
    rosFaceResult := ⟨0, 0, 0, 0, "", F32.fin 0, F32.fin 0, F32.fin 0, F32.fin 0⟩ }

/-- A secondary detector that is switched off. -/
def Detector.off {R : Type} (r : R) : Detector R :=
  { enabled := false, maxBatch := 16, result := fun _ => r }

/-- A tick input with the given boxes and crop brightness, all secondary
detectors off. -/
def plainInput (boxes : List Rect) (brightness : Rect → F32) : TickInput :=
  { pre_frame_result := boxes.map DetectionResult.mk, calcMean := brightness,
    ageGenderDetector := Detector.off ⟨F32.fin 0, F32.fin 0⟩,
    emotionsDetector := Detector.off [],
    headPoseDetector := Detector.off ⟨F32.fin 0, F32.fin 0, F32.fin 0⟩,
    facialLandmarksDetector := Detector.off [] }

/-- A 640 x 480 node that infers and publishes, with an empty tracked set. -/
def startNode (no_smooth : Bool) : ROSInterface :=
  { buffIndex_ := 0, frameWidth_ := 640, frameHeight_ := 480,
    FLAG_start_infer := true, FLAG_no_smooth := no_smooth, FLAG_pub_message := true,
    faces := [], detectionMsg := [] }

/-! ## Example runs -/

/-- Face summary used in the examples: identity, rectangle, brightness. -/
def Face.summary (f : Face) : Nat × Rect × F32 := (f._id, f._location, f._intensity_mean)

/-- Coordinates of a result record: xmin, ymin, xmax, ymax. -/
def FaceResult.coords (r : FaceResult) : Int × Int × Int × Int :=
  (r.xmin, r.ymin, r.xmax, r.ymax)

/-- Tick 1 of the end-to-end scenario: one box (10,10,50,50), brightness 100,
smoothing enabled. -/
def scenarioTick1 : ROSInterface :=
  mainFuncTick stdExternal (startNode false)
    (plainInput [⟨10, 10, 50, 50⟩] (fun _ => F32.fin 100))

/-- Tick 2 of the scenario: the box moved to (12,11,50,50), brightness 103. -/
def scenarioTick2 : ROSInterface :=
  mainFuncTick stdExternal scenarioTick1
    (plainInput [⟨12, 11, 50, 50⟩] (fun _ => F32.fin 103))

/-- Tick 3 of the scenario: the same box, brightness 140. -/
def scenarioTick3 : ROSInterface :=
  mainFuncTick stdExternal scenarioTick2
    (plainInput [⟨12, 11, 50, 50⟩] (fun _ => F32.fin 140))

/-- A second tick after `scenarioTick1` whose only box, (300,200,50,50), is far
from the Face tracked so far. -/
def farTick2 : ROSInterface :=
  mainFuncTick stdExternal scenarioTick1
    (plainInput [⟨300, 200, 50, 50⟩] (fun _ => F32.fin 100))

/-- A first tick with two boxes, (200,200,50,50) then (10,10,50,50), both of
brightness 100, smoothing enabled. -/
def twoFacesTick1 : ROSInterface :=
  mainFuncTick stdExternal (startNode false)
    (plainInput [⟨200, 200, 50, 50⟩, ⟨10, 10, 50, 50⟩] (fun _ => F32.fin 100))

/-- The tick after `twoFacesTick1`: one box (12,11,50,50), brightness 103. -/
def twoFacesTick2 : ROSInterface :=
  mainFuncTick stdExternal twoFacesTick1
    (plainInput [⟨12, 11, 50, 50⟩] (fun _ => F32.fin 103))

/-- Smoothing disabled: a first tick with one box (10,10,50,50), brightness 100. -/
def noSmoothTick1 : ROSInterface :=
  mainFuncTick stdExternal (startNode true)
    (plainInput [⟨10, 10, 50, 50⟩] (fun _ => F32.fin 100))

/-- Smoothing disabled: the same frame processed in the next tick. -/
def noSmoothTick2 : ROSInterface :=
  mainFuncTick stdExternal noSmoothTick1
    (plainInput [⟨10, 10, 50, 50⟩] (fun _ => F32.fin 100))

/-! ## Batch ceiling: predicates and example inputs -/

/-- The four attribute flags of Face number `i` equal
`detector.enabled() && i < detector.maxBatch`. -/
def GatedAt (inp : TickInput) (i : Nat) (f : Face) : Prop :=
  f._isAgeGenderEnabled =
      (inp.ageGenderDetector.enabled && decide (i < inp.ageGenderDetector.maxBatch)) ∧
    f._isEmotionsEnabled =
      (inp.emotionsDetector.enabled && decide (i < inp.emotionsDetector.maxBatch)) ∧
    f._isHeadPoseEnabled =
      (inp.headPoseDetector.enabled && decide (i < inp.headPoseDetector.maxBatch)) ∧
    f._isLandmarksEnabled =
      (inp.facialLandmarksDetector.enabled &&
        decide (i < inp.facialLandmarksDetector.maxBatch))

/-- Two detector states with the same `enabled()` and `maxBatch` whose results
agree at every index below `maxBatch` when enabled; at the other indices the
results are unrelated. -/
def Detector.AgreeWhereGated {R : Type} (d e : Detector R) : Prop :=
  e.enabled = d.enabled ∧ e.maxBatch = d.maxBatch ∧
    ∀ i, d.enabled = true → i < d.maxBatch → e.result i = d.result i

/-- Two tick inputs that differ at most in the detector results at indices
where the gate `enabled() && i < maxBatch` is false. -/
def TickInput.AgreeWhereGated (inp alt : TickInput) : Prop :=
  alt.pre_frame_result = inp.pre_frame_result ∧ alt.calcMean = inp.calcMean ∧
    inp.ageGenderDetector.AgreeWhereGated alt.ageGenderDetector ∧
    inp.emotionsDetector.AgreeWhereGated alt.emotionsDetector ∧
    inp.headPoseDetector.AgreeWhereGated alt.headPoseDetector ∧
    inp.facialLandmarksDetector.AgreeWhereGated alt.facialLandmarksDetector

/-- Three boxes and an age/gender detector with `maxBatch = 2` that returns
`third` at index 2 and beyond. -/
def batchInput (third : AgeGenderResult) : TickInput :=
  { plainInput [⟨10, 10, 50, 50⟩, ⟨100, 10, 50, 50⟩, ⟨200, 10, 50, 50⟩]
      (fun _ => F32.fin 100) with
    ageGenderDetector :=
      { enabled := true, maxBatch := 2,
        result := fun i => if i < 2 then ⟨F32.fin 1, F32.fin 30⟩ else third } }

/-! ## The quotient of line 335 -/

/-- Divisor of the quotient of line 335 for one detection, if the quotient is
evaluated at all: the right operand of `(face == nullptr) || ...` runs only
with smoothing enabled and a non-null result of `matchFace`, and it divides by
`face->_intensity_mean`. -/
def testDivisor (ext : External) (FLAG_no_smooth : Bool) (rect : Rect)
    (prev_faces : List Face) : Option F32 :=
  if !FLAG_no_smooth then
    match ext.matchFace rect prev_faces with
    | none => none
    | some face => some face._intensity_mean
  else none

/-- Two boxes for a 640 x 480 frame: (10,10,50,50) inside it and
(700,500,50,50) outside it. -/
def outsideInput : TickInput :=
  plainInput [⟨10, 10, 50, 50⟩, ⟨700, 500, 50, 50⟩] (fun _ => F32.fin 100)

/-! ## Ring buffer cursor: theorems -/

/-- C1: for every cursor value `c` in {0,1,2} the slot written by acquisition
(`c`), the slot read and annotated by inference (`(c+2) mod 3`) and the slot
rendered by display (`(c+1) mod 3`) are slots of the three-slot buffer and are
pairwise distinct, and the cursor update `(c+1) mod 3` stays in {0,1,2}. -/
theorem slots_pairwise_distinct (c : Nat) (hc : c < 3) :
    (fetchSlot c < 3 ∧ estimateSlot c < 3 ∧ displaySlot c < 3) ∧
      fetchSlot c ≠ estimateSlot c ∧ fetchSlot c ≠ displaySlot c ∧
      estimateSlot c ≠ displaySlot c ∧ nextBuffIndex c < 3 := by
  unfold fetchSlot estimateSlot displaySlot nextBuffIndex
  omega

/-- C1 at the cursor value 2. -/
theorem slots_pairwise_distinct_witness :
    2 < 3 ∧ ((fetchSlot 2 < 3 ∧ estimateSlot 2 < 3 ∧ displaySlot 2 < 3) ∧
      fetchSlot 2 ≠ estimateSlot 2 ∧ fetchSlot 2 ≠ displaySlot 2 ∧
      estimateSlot 2 ≠ displaySlot 2 ∧ nextBuffIndex 2 < 3) :=
  ⟨by decide, slots_pairwise_distinct 2 (by decide)⟩

/-- C2: for consecutive ticks with cursor values `c` in {0,1,2} and
`(c+1) mod 3`, the slot inference reads in the later tick is the slot
acquisition wrote in the earlier tick, and the slot display renders in the
later tick is the slot inference read and annotated in the earlier tick. -/
theorem slot_handoff_between_ticks (c : Nat) (hc : c < 3) :
    estimateSlot (nextBuffIndex c) = fetchSlot c ∧
      displaySlot (nextBuffIndex c) = estimateSlot c := by
  unfold fetchSlot estimateSlot displaySlot nextBuffIndex
  omega

/-- C2 at the cursor value 2, whose successor wraps around to 0. -/
theorem slot_handoff_between_ticks_witness :
    2 < 3 ∧ (estimateSlot (nextBuffIndex 2) = fetchSlot 2 ∧
      displaySlot (nextBuffIndex 2) = estimateSlot 2) :=
  ⟨by decide, slot_handoff_between_ticks 2 (by decide)⟩

/-! ## The loop of `estimateInThread`: general facts -/

/-- Gating never touches identity, rectangle or brightness. -/
theorem applyAttributes_core (ext : External) (inp : TickInput) (i : Nat)
    (face : Face) (r : FaceResult) :
    (applyAttributes ext inp i face r).1._id = face._id ∧
      (applyAttributes ext inp i face r).1._location = face._location ∧
      (applyAttributes ext inp i face r).1._intensity_mean = face._intensity_mean := by
  simp only [applyAttributes, Face.ageGenderEnable, Face.emotionsEnable,
    Face.headPoseEnable, Face.landmarksEnable, Face.updateAgeGender,
    Face.updateEmotions, Face.updateHeadPose, Face.updateLandmarks]
  split_ifs <;> simp

/-- Gating never touches the four coordinates of the record. -/
theorem applyAttributes_coords (ext : External) (inp : TickInput) (i : Nat)
    (face : Face) (r : FaceResult) :
    (applyAttributes ext inp i face r).2.xmin = r.xmin ∧
      (applyAttributes ext inp i face r).2.ymin = r.ymin ∧
      (applyAttributes ext inp i face r).2.xmax = r.xmax ∧
      (applyAttributes ext inp i face r).2.ymax = r.ymax := by
  simp only [applyAttributes, Face.ageGenderEnable, Face.emotionsEnable,
    Face.headPoseEnable, Face.landmarksEnable, Face.updateAgeGender,
    Face.updateEmotions, Face.updateHeadPose, Face.updateLandmarks]
  split_ifs <;> simp

/-- The four flags after gating are `enabled() && i < maxBatch`. -/
theorem applyAttributes_flags (ext : External) (inp : TickInput) (i : Nat)
    (face : Face) (r : FaceResult) :
    (applyAttributes ext inp i face r).1._isAgeGenderEnabled =
        (inp.ageGenderDetector.enabled && decide (i < inp.ageGenderDetector.maxBatch)) ∧
      (applyAttributes ext inp i face r).1._isEmotionsEnabled =
        (inp.emotionsDetector.enabled && decide (i < inp.emotionsDetector.maxBatch)) ∧
      (applyAttributes ext inp i face r).1._isHeadPoseEnabled =
        (inp.headPoseDetector.enabled && decide (i < inp.headPoseDetector.maxBatch)) ∧
      (applyAttributes ext inp i face r).1._isLandmarksEnabled =
        (inp.facialLandmarksDetector.enabled &&
          decide (i < inp.facialLandmarksDetector.maxBatch)) := by
  simp only [applyAttributes, Face.ageGenderEnable, Face.emotionsEnable,
    Face.headPoseEnable, Face.landmarksEnable, Face.updateAgeGender,
    Face.updateEmotions, Face.updateHeadPose, Face.updateLandmarks]
  split_ifs <;> simp

/-- With an empty pool every detection gets a Face built by `Face(id++, rect)`. -/
theorem selectFace_empty_pool (ext : External) (hext : ext.MatchInPool)
    (no_smooth : Bool) (calcMean : Rect → F32) (rect : Rect) (id : Nat) :
    (selectFace ext no_smooth calcMean rect id []).1._id = id ∧
      (selectFace ext no_smooth calcMean rect id []).2.2.1 = id + 1 ∧
      (selectFace ext no_smooth calcMean rect id []).2.2.2 = [] := by
  have hnone : ext.matchFace rect [] = none := by
    cases h : ext.matchFace rect [] with
    | none => rfl
    | some f => exact absurd (hext rect [] f h) (List.not_mem_nil f)
  cases no_smooth <;> simp [selectFace, hnone, Face.create]

/-- One pass of the loop body from an empty pool: the pool stays empty, the
counter advances by one and the new Face carries the old counter value. -/
theorem processDetection_empty_pool (ext : External) (hext : ext.MatchInPool)
    (node : ROSInterface) (inp : TickInput) (i : Nat) (result : DetectionResult)
    (s : LoopState) (hpool : s.prev_faces = []) :
    (processDetection ext node inp i result s).prev_faces = [] ∧
      (processDetection ext node inp i result s).id = s.id + 1 ∧
      (processDetection ext node inp i result s).faces.map (fun f => f._id) =
        s.faces.map (fun f => f._id) ++ [s.id] := by
  have h := selectFace_empty_pool ext hext node.FLAG_no_smooth inp.calcMean
    (result.location.inter ⟨0, 0, node.frameWidth_, node.frameHeight_⟩) s.id
  simp only [processDetection, hpool, List.map_append, List.map_cons, List.map_nil]
  refine ⟨h.2.2, h.2.1, ?_⟩
  rw [(applyAttributes_core ext inp i _ _).1, h.1]

/-- The whole loop from an empty pool: the identities appended to `faces` are
the successive counter values. -/
theorem estimateLoop_empty_pool (ext : External) (hext : ext.MatchInPool)
    (node : ROSInterface) (inp : TickInput) (dets : List DetectionResult) :
    ∀ (i : Nat) (s : LoopState), s.prev_faces = [] →
      (estimateLoop ext node inp i dets s).prev_faces = [] ∧
      (estimateLoop ext node inp i dets s).id = s.id + dets.length ∧
      (estimateLoop ext node inp i dets s).faces.map (fun f => f._id) =
        s.faces.map (fun f => f._id) ++ List.range' s.id dets.length := by
  induction dets with
  | nil => intro i s hpool; simp [estimateLoop, hpool]
  | cons d rest ih =>
    intro i s hpool
    obtain ⟨h1, h2, h3⟩ := processDetection_empty_pool ext hext node inp i d s hpool
    obtain ⟨k1, k2, k3⟩ := ih (i + 1) (processDetection ext node inp i d s) h1
    simp only [estimateLoop]
    refine ⟨k1, ?_, ?_⟩
    · rw [k2, h2, List.length_cons]; omega
    · rw [k3, h3, h2, List.length_cons, List.range'_succ, List.append_assoc]
      rfl

/-- The identities of the tracked set after the loop are 0, 1, ..., n-1 for
the n detections of the frame, whatever the tracked set held before. -/
theorem inferFaces_ids (ext : External) (hext : ext.MatchInPool)
    (node : ROSInterface) (inp : TickInput) :
    (inferFaces ext node inp).faces.map (fun f => f._id) =
      List.range inp.pre_frame_result.length := by
  have h := (estimateLoop_empty_pool ext hext node inp inp.pre_frame_result 0
    (loopEntry node) rfl).2.2
  simp only [inferFaces]
  rw [h, List.range_eq_range']
  simp [loopEntry]

/-- Publishing leaves the tracked set alone. -/
theorem publishInThread_faces (node : ROSInterface) :
    (publishInThread node).1.faces = node.faces := by
  unfold publishInThread
  split_ifs <;> rfl

/-- The tracked set after an inferring tick is the one the loop built. -/
theorem estimateInThread_faces (ext : External) (node : ROSInterface) (inp : TickInput)
    (hrun : node.FLAG_start_infer = true) :
    (estimateInThread ext node inp).1.faces = (inferFaces ext node inp).faces := by
  simp [estimateInThread, hrun, publishInThread_faces]

/-- The overlap matcher returns a Face of the pool, or none. -/
theorem matchFace_foldl_mem (rect : Rect) (pool : List Face) :
    ∀ (best : Option Face × Int) (f : Face),
      (pool.foldl (matchFaceStep rect) best).1 = some f → f ∈ pool ∨ best.1 = some f := by
  induction pool with
  | nil => intro best f h; exact Or.inr h
  | cons g rest ih =>
    intro best f h
    rw [List.foldl_cons] at h
    rcases ih _ f h with hm | hb
    · exact Or.inl (List.mem_cons_of_mem g hm)
    · simp only [matchFaceStep] at hb
      split_ifs at hb
      · left
        have : g = f := by simpa using hb
        rw [this]; exact List.mem_cons_self f rest
      · exact Or.inr hb

/-- The helpers of the examples satisfy `MatchInPool`. -/
theorem stdExternal_matchInPool : stdExternal.MatchInPool := by
  intro rect pool f h
  rcases matchFace_foldl_mem rect pool (none, 0) f h with hm | hb
  · exact hm
  · cases hb

/-! ## Identities within one tick -/

/-- C4: for every inference tick and every list of detections, the Faces
placed in the tracked set `faces` by that tick have pairwise distinct
identities. This holds for either value of `FLAG_no_smooth`, so in particular
with smoothing enabled. -/
theorem tracked_identities_distinct (ext : External) (hext : ext.MatchInPool)
    (node : ROSInterface) (inp : TickInput) (hrun : node.FLAG_start_infer = true) :
    ((estimateInThread ext node inp).1.faces.map (fun f => f._id)).Nodup := by
  rw [estimateInThread_faces ext node inp hrun, inferFaces_ids ext hext node inp]
  exact List.nodup_range _

/-- C4 on the third tick of the scenario, which follows two ticks that each
tracked a Face. -/
theorem tracked_identities_distinct_witness :
    stdExternal.MatchInPool ∧ scenarioTick2.FLAG_start_infer = true ∧
      scenarioTick2.FLAG_no_smooth = false ∧
      ((estimateInThread stdExternal scenarioTick2
        (plainInput [⟨12, 11, 50, 50⟩, ⟨300, 200, 50, 50⟩, ⟨100, 300, 40, 40⟩]
          (fun _ => F32.fin 140))).1.faces.map (fun f => f._id)).Nodup :=
  ⟨stdExternal_matchInPool, by decide, by decide,
    tracked_identities_distinct stdExternal stdExternal_matchInPool scenarioTick2 _
      (by decide)⟩

/-! ## Identities across ticks -/

/-- Brightness 100 then 103: the test of line 335 is false (change of 3%). -/
theorem brightnessChanged_100_103 :
    brightnessChanged (F32.fin 103) (F32.fin 100) = false := by
  simp [brightnessChanged, F32.sub, F32.abs, F32.div, F32.gt, F32.threshold]
  norm_num

/-- Brightness 103 then 140: the test of line 335 is true (change of 36%). -/
theorem brightnessChanged_103_140 :
    brightnessChanged (F32.fin 140) (F32.fin 103) = true := by
  simp [brightnessChanged, F32.sub, F32.abs, F32.div, F32.gt, F32.threshold]
  norm_num

/-- C3 (evaluation of the code): after a first tick the tracked set holds a
Face of identity 0; in the next tick a box that overlaps no tracked Face gets a
newly created Face, and that Face is given identity 0 again, because the
counter `id` restarts at 0 in every call of `estimateInThread`. -/
theorem identity_reused_in_later_tick :
    scenarioTick1.faces.map Face.summary = [(0, ⟨10, 10, 50, 50⟩, F32.fin 100)] ∧
      matchFace ⟨300, 200, 50, 50⟩ scenarioTick1.faces = none ∧
      farTick2.faces.map Face.summary = [(0, ⟨300, 200, 50, 50⟩, F32.fin 100)] := by
  decide

/-- C5 (evaluation of the code): the first tick tracks Faces 0 and 1; the box
of the second tick overlaps the rectangle of Face 1 and the brightness moved
from 100 to 103, yet the Face produced has identity 0, not 1: the pool
`prev_faces` is empty when `matchFace` is called. -/
theorem continuity_not_kept :
    twoFacesTick1.faces.map Face.summary =
        [(0, ⟨200, 200, 50, 50⟩, F32.fin 100), (1, ⟨10, 10, 50, 50⟩, F32.fin 100)] ∧
      (matchFace ⟨12, 11, 50, 50⟩ twoFacesTick1.faces).map Face.summary =
        some (1, ⟨10, 10, 50, 50⟩, F32.fin 100) ∧
      brightnessChanged (F32.fin 103) (F32.fin 100) = false ∧
      twoFacesTick2.faces.map Face.summary = [(0, ⟨12, 11, 50, 50⟩, F32.fin 103)] :=
  ⟨by decide, by decide, brightnessChanged_100_103, by decide⟩

/-- C6 (evaluation of the code): ticks 2 and 3 of the scenario. The box of
tick 3 overlaps the Face tracked by tick 2 (identity 0, brightness 103) and the
brightness jumps to 140; the Face created by tick 3 has identity 0 again, so
the identity of the overlapped Face is still in the tracked set. -/
theorem discontinuity_same_identity :
    scenarioTick2.faces.map Face.summary = [(0, ⟨12, 11, 50, 50⟩, F32.fin 103)] ∧
      (matchFace ⟨12, 11, 50, 50⟩ scenarioTick2.faces).map Face.summary =
        some (0, ⟨12, 11, 50, 50⟩, F32.fin 103) ∧
      brightnessChanged (F32.fin 140) (F32.fin 103) = true ∧
      scenarioTick3.faces.map Face.summary = [(0, ⟨12, 11, 50, 50⟩, F32.fin 140)] :=
  ⟨by decide, by decide, brightnessChanged_103_140, by decide⟩

/-- C8 (evaluation of the code): with smoothing disabled the same frame
processed in two consecutive ticks gives the Face identity 0 both times. -/
theorem no_smooth_identity_repeats :
    (startNode true).FLAG_no_smooth = true ∧
      noSmoothTick1.faces.map (fun f => f._id) = [0] ∧
      noSmoothTick2.faces.map (fun f => f._id) = [0] := by
  decide

/-! ## Result records -/

/-- The record built at lines 343-346 never receives `ymin`: it keeps the value
of the default-constructed message. -/
theorem selectFace_ymin (ext : External) (no_smooth : Bool) (calcMean : Rect → F32)
    (rect : Rect) (id : Nat) (pool : List Face) :
    (selectFace ext no_smooth calcMean rect id pool).2.1.ymin = ext.rosFaceResult.ymin := by
  cases no_smooth <;> simp [selectFace]

/-- C9 (evaluation of the code): for the box (10,10,50,50) inside a 640 x 480
frame the published record has coordinates (xmin, ymin, xmax, ymax) =
(10, 0, 60, 60) with smoothing enabled and (0, 0, 0, 0) with smoothing
disabled; the claim asks for (10, 10, 60, 60) in both cases. -/
theorem result_record_coordinates :
    Rect.inter ⟨10, 10, 50, 50⟩ ⟨0, 0, 640, 480⟩ = ⟨10, 10, 50, 50⟩ ∧
      ((estimateInThread stdExternal (startNode false)
        (plainInput [⟨10, 10, 50, 50⟩] (fun _ => F32.fin 100))).2.map
          (fun l => l.map FaceResult.coords)) = some [(10, 0, 60, 60)] ∧
      ((estimateInThread stdExternal (startNode true)
        (plainInput [⟨10, 10, 50, 50⟩] (fun _ => F32.fin 100))).2.map
          (fun l => l.map FaceResult.coords)) = some [(0, 0, 0, 0)] := by
  decide

/-! ## Batch ceiling -/

/-- The loop pushes one Face per detection and each pushed Face is gated by its
own index. -/
theorem estimateLoop_gated (ext : External) (node : ROSInterface) (inp : TickInput)
    (dets : List DetectionResult) :
    ∀ (i : Nat) (s : LoopState), s.faces.length = i →
      (∀ j f, s.faces[j]? = some f → GatedAt inp j f) →
      (estimateLoop ext node inp i dets s).faces.length = i + dets.length ∧
      ∀ j f, (estimateLoop ext node inp i dets s).faces[j]? = some f → GatedAt inp j f := by
  induction dets with
  | nil => intro i s hlen hg; exact ⟨by simpa [estimateLoop] using hlen, hg⟩
  | cons d rest ih =>
    intro i s hlen hg
    have hstep := ih (i + 1) (processDetection ext node inp i d s)
      (by simp [processDetection, hlen])
      (by
        intro j f hj
        simp only [processDetection] at hj
        by_cases hlt : j < s.faces.length
        · rw [List.getElem?_append_left hlt] at hj
          exact hg j f hj
        · rw [List.getElem?_append_right (Nat.le_of_not_lt hlt)] at hj
          have hidx : j - s.faces.length = 0 := by
            by_contra hne
            have : [(applyAttributes ext inp i
                (selectFace ext node.FLAG_no_smooth inp.calcMean
                  (d.location.inter ⟨0, 0, node.frameWidth_, node.frameHeight_⟩)
                  s.id s.prev_faces).1
                (selectFace ext node.FLAG_no_smooth inp.calcMean
                  (d.location.inter ⟨0, 0, node.frameWidth_, node.frameHeight_⟩)
                  s.id s.prev_faces).2.1).1][j - s.faces.length]? = none := by
              apply List.getElem?_eq_none
              simp only [List.length_singleton]
              omega
            rw [this] at hj
            cases hj
          rw [hidx] at hj
          have hji : j = i := by omega
          have hf : f = _ := (Option.some.inj hj).symm
          rw [hf, hji]
          exact applyAttributes_flags ext inp i _ _)
    simp only [estimateLoop]
    refine ⟨?_, hstep.2⟩
    rw [hstep.1, List.length_cons]
    omega

/-- Results at indices where the gate is false are never read. -/
theorem applyAttributes_congr (ext : External) (inp alt : TickInput)
    (h : inp.AgreeWhereGated alt) (i : Nat) (face : Face) (r : FaceResult) :
    applyAttributes ext alt i face r = applyAttributes ext inp i face r := by
  obtain ⟨_, _, ⟨e1, m1, r1⟩, ⟨e2, m2, r2⟩, ⟨e3, m3, r3⟩, ⟨e4, m4, r4⟩⟩ := h
  simp only [applyAttributes, Face.ageGenderEnable, Face.emotionsEnable,
    Face.headPoseEnable, Face.landmarksEnable, e1, m1, e2, m2, e3, m3, e4, m4]
  have q1 : (inp.ageGenderDetector.enabled &&
      decide (i < inp.ageGenderDetector.maxBatch)) = true →
      alt.ageGenderDetector.result i = inp.ageGenderDetector.result i := by
    intro g
    simp only [Bool.and_eq_true, decide_eq_true_eq] at g
    exact r1 i g.1 g.2
  have q2 : (inp.emotionsDetector.enabled &&
      decide (i < inp.emotionsDetector.maxBatch)) = true →
      alt.emotionsDetector.result i = inp.emotionsDetector.result i := by
    intro g
    simp only [Bool.and_eq_true, decide_eq_true_eq] at g
    exact r2 i g.1 g.2
  have q3 : (inp.headPoseDetector.enabled &&
      decide (i < inp.headPoseDetector.maxBatch)) = true →
      alt.headPoseDetector.result i = inp.headPoseDetector.result i := by
    intro g
    simp only [Bool.and_eq_true, decide_eq_true_eq] at g
    exact r3 i g.1 g.2
  have q4 : (inp.facialLandmarksDetector.enabled &&
      decide (i < inp.facialLandmarksDetector.maxBatch)) = true →
      alt.facialLandmarksDetector.result i = inp.facialLandmarksDetector.result i := by
    intro g
    simp only [Bool.and_eq_true, decide_eq_true_eq] at g
    exact r4 i g.1 g.2
  split_ifs with g1 g2 g3 g4 <;> simp_all

/-- The loop does not depend on results at indices where the gate is false. -/
theorem estimateLoop_congr (ext : External) (node : ROSInterface) (inp alt : TickInput)
    (h : inp.AgreeWhereGated alt) (dets : List DetectionResult) :
    ∀ (i : Nat) (s : LoopState),
      estimateLoop ext node alt i dets s = estimateLoop ext node inp i dets s := by
  induction dets with
  | nil => intro i s; rfl
  | cons d rest ih =>
    intro i s
    simp only [estimateLoop]
    rw [ih]
    congr 1
    simp only [processDetection, h.2.1, applyAttributes_congr ext inp alt h]

/-- C7: for every inference tick, every detection index `i` and each of the
four secondary attributes, the enabled flag of Face number `i` after the tick
equals `detector.enabled() && i < detector.maxBatch` (so it is false at every
index from `maxBatch` on, e.g. at index 2 when `maxBatch = 2`), the tracked set
holds one Face per detection, and the outcome of the tick is the same for any
other detector results at the indices where the flag is false. -/
theorem batch_ceiling_gating (ext : External) (node : ROSInterface) (inp alt : TickInput)
    (hrun : node.FLAG_start_infer = true) (hagree : inp.AgreeWhereGated alt) :
    (estimateInThread ext node inp).1.faces.length = inp.pre_frame_result.length ∧
      (∀ i f, (estimateInThread ext node inp).1.faces[i]? = some f → GatedAt inp i f) ∧
      (∀ i f, (estimateInThread ext node inp).1.faces[i]? = some f →
        (inp.ageGenderDetector.maxBatch ≤ i → f._isAgeGenderEnabled = false) ∧
        (inp.emotionsDetector.maxBatch ≤ i → f._isEmotionsEnabled = false) ∧
        (inp.headPoseDetector.maxBatch ≤ i → f._isHeadPoseEnabled = false) ∧
        (inp.facialLandmarksDetector.maxBatch ≤ i → f._isLandmarksEnabled = false)) ∧
      estimateInThread ext node alt = estimateInThread ext node inp := by
  have hloop := estimateLoop_gated ext node inp inp.pre_frame_result 0 (loopEntry node) rfl
    (by intro j f hj; simp [loopEntry] at hj)
  have hfaces : (estimateInThread ext node inp).1.faces =
      (estimateLoop ext node inp 0 inp.pre_frame_result (loopEntry node)).faces := by
    rw [estimateInThread_faces ext node inp hrun]; rfl
  have hgated : ∀ i f, (estimateInThread ext node inp).1.faces[i]? = some f →
      GatedAt inp i f := by
    intro i f hi
    rw [hfaces] at hi
    exact hloop.2 i f hi
  refine ⟨?_, hgated, ?_, ?_⟩
  · rw [hfaces, hloop.1]; omega
  · intro i f hi
    obtain ⟨g1, g2, g3, g4⟩ := hgated i f hi
    refine ⟨?_, ?_, ?_, ?_⟩
    · intro hle; rw [g1]; simp; intro _; omega
    · intro hle; rw [g2]; simp; intro _; omega
    · intro hle; rw [g3]; simp; intro _; omega
    · intro hle; rw [g4]; simp; intro _; omega
  · simp only [estimateInThread, inferFaces, hagree.1,
      estimateLoop_congr ext node inp alt hagree]

/-- Two `batchInput`s agree wherever the gate is true. -/
theorem batchInput_agree (a b : AgeGenderResult) :
    (batchInput a).AgreeWhereGated (batchInput b) := by
  refine ⟨rfl, rfl, ⟨rfl, rfl, ?_⟩, ⟨rfl, rfl, fun _ _ _ => rfl⟩,
    ⟨rfl, rfl, fun _ _ _ => rfl⟩, ⟨rfl, rfl, fun _ _ _ => rfl⟩⟩
  intro i _ hi
  have hi2 : i < 2 := hi
  simp [batchInput, hi2]

/-- C7 with three boxes and an age/gender detector of `maxBatch = 2`, for two
different results of that detector at index 2. -/
theorem batch_ceiling_gating_witness :
    (startNode false).FLAG_start_infer = true ∧
      (batchInput ⟨F32.fin 1, F32.fin 30⟩).AgreeWhereGated
        (batchInput ⟨F32.fin 0, F32.fin 60⟩) ∧
      ((estimateInThread stdExternal (startNode false)
          (batchInput ⟨F32.fin 1, F32.fin 30⟩)).1.faces.length =
        (batchInput ⟨F32.fin 1, F32.fin 30⟩).pre_frame_result.length ∧
      (∀ i f, (estimateInThread stdExternal (startNode false)
          (batchInput ⟨F32.fin 1, F32.fin 30⟩)).1.faces[i]? = some f →
        GatedAt (batchInput ⟨F32.fin 1, F32.fin 30⟩) i f) ∧
      (∀ i f, (estimateInThread stdExternal (startNode false)
          (batchInput ⟨F32.fin 1, F32.fin 30⟩)).1.faces[i]? = some f →
        ((batchInput ⟨F32.fin 1, F32.fin 30⟩).ageGenderDetector.maxBatch ≤ i →
          f._isAgeGenderEnabled = false) ∧
        ((batchInput ⟨F32.fin 1, F32.fin 30⟩).emotionsDetector.maxBatch ≤ i →
          f._isEmotionsEnabled = false) ∧
        ((batchInput ⟨F32.fin 1, F32.fin 30⟩).headPoseDetector.maxBatch ≤ i →
          f._isHeadPoseEnabled = false) ∧
        ((batchInput ⟨F32.fin 1, F32.fin 30⟩).facialLandmarksDetector.maxBatch ≤ i →
          f._isLandmarksEnabled = false)) ∧
      estimateInThread stdExternal (startNode false) (batchInput ⟨F32.fin 0, F32.fin 60⟩) =
        estimateInThread stdExternal (startNode false)
          (batchInput ⟨F32.fin 1, F32.fin 30⟩)) :=
  ⟨rfl, batchInput_agree _ _,
    batch_ceiling_gating stdExternal (startNode false) _ _ rfl (batchInput_agree _ _)⟩

/-- The example of the batch ceiling evaluated: `maxBatch = 2`, three boxes,
and the third Face has the age/gender flag false. -/
theorem batchInput_flags :
    (batchInput ⟨F32.fin 1, F32.fin 30⟩).ageGenderDetector.maxBatch = 2 ∧
      (estimateInThread stdExternal (startNode false)
        (batchInput ⟨F32.fin 1, F32.fin 30⟩)).1.faces.map
          (fun f => (f._isAgeGenderEnabled, f.ageGender.isSome)) =
        [(true, true), (true, true), (false, false)] := by
  decide

/-! ## The relative-change test with a zero stored brightness -/

/-- Against a stored brightness of zero the quotient of line 335 is computed
with divisor zero: it is not-a-number when the current brightness is zero too
and plus infinity for any other finite current brightness. -/
theorem div_zero_stored (m : ℚ) :
    F32.div (F32.abs (F32.sub (F32.fin m) (F32.fin 0))) (F32.fin 0) =
      if m = 0 then F32.nan else F32.pinf := by
  by_cases h : m = 0
  · simp [F32.sub, F32.abs, F32.div, h]
  · simp [F32.sub, F32.abs, F32.div, h]

/-- Against a stored brightness of zero the test of line 335 is true exactly
when the current brightness is not zero. -/
theorem brightnessChanged_zero_stored (m : ℚ) :
    brightnessChanged (F32.fin m) (F32.fin 0) = decide (m ≠ 0) := by
  unfold brightnessChanged
  rw [div_zero_stored]
  by_cases h : m = 0
  · simp [h, F32.gt]
  · simp [h, F32.gt, F32.threshold]

/-- Lines 331-342 when `matchFace` returned a Face. -/
theorem selectFace_matched (ext : External) (calcMean : Rect → F32) (rect : Rect)
    (id : Nat) (prev_faces : List Face) (face : Face)
    (hmatch : ext.matchFace rect prev_faces = some face) :
    (brightnessChanged (calcMean rect) face._intensity_mean = true →
      (selectFace ext false calcMean rect id prev_faces).1._id = id ∧
      (selectFace ext false calcMean rect id prev_faces).2.2.1 = id + 1 ∧
      (selectFace ext false calcMean rect id prev_faces).2.2.2 = prev_faces) ∧
    (brightnessChanged (calcMean rect) face._intensity_mean = false →
      (selectFace ext false calcMean rect id prev_faces).1._id = face._id ∧
      (selectFace ext false calcMean rect id prev_faces).2.2.1 = id ∧
      (selectFace ext false calcMean rect id prev_faces).2.2.2 =
        prev_faces.filter (fun g => decide (g ≠ face))) := by
  constructor
  · intro hb
    simp [selectFace, hmatch, hb, Face.create]
  · intro hb
    simp [selectFace, hmatch, hb]

/-- With smoothing enabled the chosen Face carries the clipped rectangle and
the brightness of the current crop (lines 341-342). -/
theorem selectFace_smooth_fields (ext : External) (calcMean : Rect → F32) (rect : Rect)
    (id : Nat) (prev_faces : List Face) :
    (selectFace ext false calcMean rect id prev_faces).1._location = rect ∧
      (selectFace ext false calcMean rect id prev_faces).1._intensity_mean =
        calcMean rect := by
  simp [selectFace]

/-- The trace `testDivisor` and the choice of `selectFace` agree: without a
divisor the Face is built by `Face(id++, rect)` and the pool is untouched; with
a divisor the test of line 335 against it decides. -/
theorem selectFace_by_divisor (ext : External) (no_smooth : Bool) (calcMean : Rect → F32)
    (rect : Rect) (id : Nat) (prev_faces : List Face) :
    (testDivisor ext no_smooth rect prev_faces = none →
      (selectFace ext no_smooth calcMean rect id prev_faces).1._id = id ∧
      (selectFace ext no_smooth calcMean rect id prev_faces).2.2.1 = id + 1 ∧
      (selectFace ext no_smooth calcMean rect id prev_faces).2.2.2 = prev_faces) ∧
    (∀ d, testDivisor ext no_smooth rect prev_faces = some d →
      (selectFace ext no_smooth calcMean rect id prev_faces).2.2.1 =
        if brightnessChanged (calcMean rect) d then id + 1 else id) := by
  cases no_smooth
  · cases hm : ext.matchFace rect prev_faces with
    | none => simp [testDivisor, selectFace, hm, Face.create]
    | some face =>
      refine ⟨by simp [testDivisor, hm], ?_⟩
      intro d hd
      have hd2 : face._intensity_mean = d := by simpa [testDivisor, hm] using hd
      rw [← hd2]
      by_cases hb : brightnessChanged (calcMean rect) face._intensity_mean = true
      · simp [selectFace, hm, hb]
      · have hb2 : brightnessChanged (calcMean rect) face._intensity_mean = false := by
          simpa using hb
        simp [selectFace, hm, hb2]
  · simp [testDivisor, selectFace, Face.create]

/-- The chosen Face always carries the clipped rectangle: through the
constructor with smoothing disabled, through line 342 with smoothing enabled. -/
theorem selectFace_location (ext : External) (no_smooth : Bool) (calcMean : Rect → F32)
    (rect : Rect) (id : Nat) (prev_faces : List Face) :
    (selectFace ext no_smooth calcMean rect id prev_faces).1._location = rect := by
  cases no_smooth <;> simp [selectFace, Face.create]

/-- The loop pushes, for each detection in order, one Face carrying the clipped
rectangle and one result record; there is no test on the rectangle. -/
theorem estimateLoop_locations (ext : External) (node : ROSInterface) (inp : TickInput)
    (dets : List DetectionResult) :
    ∀ (i : Nat) (s : LoopState),
      (estimateLoop ext node inp i dets s).faces.map (fun f => f._location) =
        s.faces.map (fun f => f._location) ++
          dets.map (fun d => d.location.inter ⟨0, 0, node.frameWidth_, node.frameHeight_⟩) ∧
      (estimateLoop ext node inp i dets s).results.length =
        s.results.length + dets.length := by
  induction dets with
  | nil => intro i s; simp [estimateLoop]
  | cons d rest ih =>
    intro i s
    obtain ⟨h1, h2⟩ := ih (i + 1) (processDetection ext node inp i d s)
    simp only [estimateLoop]
    refine ⟨?_, ?_⟩
    · rw [h1]
      simp only [processDetection, List.map_append, List.map_cons, List.map_nil,
        List.append_assoc, List.singleton_append]
      rw [(applyAttributes_core ext inp i _ _).2.1, selectFace_location]
    · rw [h2]
      simp only [processDetection, List.length_append, List.length_cons, List.length_nil]
      omega

/-- With smoothing disabled line 349 alone chooses the Face: neither
`matchFace` nor `calcMean` is called. -/
theorem selectFace_no_smooth (ext : External) (calcMean : Rect → F32) (rect : Rect)
    (id : Nat) (prev_faces : List Face) :
    selectFace ext true calcMean rect id prev_faces =
      (Face.create id rect, ext.rosFaceResult, id + 1, prev_faces) := by
  simp [selectFace]

/-- With smoothing disabled the loop is the same for any other `matchFace` and
any other crop brightness. -/
theorem estimateLoop_no_smooth_congr (ext : External) (node : ROSInterface)
    (inp : TickInput) (hoff : node.FLAG_no_smooth = true)
    (mf : Rect → List Face → Option Face) (cm : Rect → F32)
    (dets : List DetectionResult) :
    ∀ (i : Nat) (s : LoopState),
      estimateLoop { ext with matchFace := mf } node { inp with calcMean := cm } i dets s =
        estimateLoop ext node inp i dets s := by
  induction dets with
  | nil => intro i s; rfl
  | cons d rest ih =>
    intro i s
    simp only [estimateLoop]
    rw [ih]
    congr 1
    simp only [processDetection, hoff, selectFace_no_smooth]
    rfl

/-- C11 refuted as stated: with smoothing disabled, in a 640 x 480 frame the
box (700,500,50,50) has a clipped rectangle of zero area, yet after the tick
the tracked set holds two Faces for the two detections, the second one with
the empty rectangle (0,0,0,0); the claim asks for a single Face. -/
theorem zero_area_detection_tracked :
    (startNode true).FLAG_no_smooth = true ∧
      Rect.inter ⟨700, 500, 50, 50⟩ ⟨0, 0, 640, 480⟩ = ⟨0, 0, 0, 0⟩ ∧
      (Rect.inter ⟨700, 500, 50, 50⟩ ⟨0, 0, 640, 480⟩).area = 0 ∧
      (estimateInThread stdExternal (startNode true) outsideInput).1.faces.map
          (fun f => f._location) =
        [⟨10, 10, 50, 50⟩, ⟨0, 0, 0, 0⟩] := by
  decide

/-- C11 (as the code has it): with smoothing disabled no detection is skipped.
For every such inference tick the tracked set holds exactly one Face per
detection, in detection order, each carrying the clipped rectangle of its
detection whatever its area; one result record per detection is appended; and
the tick is the same for any other `matchFace` and any other crop brightness,
neither being called. -/
theorem no_detection_skipped (ext : External) (node : ROSInterface) (inp : TickInput)
    (hrun : node.FLAG_start_infer = true) (hoff : node.FLAG_no_smooth = true) :
    (estimateInThread ext node inp).1.faces.length = inp.pre_frame_result.length ∧
      (estimateInThread ext node inp).1.faces.map (fun f => f._location) =
        inp.pre_frame_result.map
          (fun d => d.location.inter ⟨0, 0, node.frameWidth_, node.frameHeight_⟩) ∧
      (inferFaces ext node inp).detectionMsg.length =
        node.detectionMsg.length + inp.pre_frame_result.length ∧
      (∀ (mf : Rect → List Face → Option Face) (cm : Rect → F32),
        estimateInThread { ext with matchFace := mf } node { inp with calcMean := cm } =
          estimateInThread ext node inp) := by
  have hloop := estimateLoop_locations ext node inp inp.pre_frame_result 0 (loopEntry node)
  have hloc : (estimateInThread ext node inp).1.faces.map (fun f => f._location) =
      inp.pre_frame_result.map
        (fun d => d.location.inter ⟨0, 0, node.frameWidth_, node.frameHeight_⟩) := by
    rw [estimateInThread_faces ext node inp hrun]
    simpa [inferFaces, loopEntry] using hloop.1
  refine ⟨?_, hloc, ?_, ?_⟩
  · have := congrArg List.length hloc
    simpa using this
  · simpa [inferFaces, loopEntry] using hloop.2
  · intro mf cm
    simp only [estimateInThread, inferFaces,
      estimateLoop_no_smooth_congr ext node inp hoff mf cm]

/-- C11 (as the code has it) on the two boxes of `outsideInput`, the second of
which lies outside the frame. -/
theorem no_detection_skipped_witness :
    (startNode true).FLAG_start_infer = true ∧ (startNode true).FLAG_no_smooth = true ∧
      ((estimateInThread stdExternal (startNode true) outsideInput).1.faces.length =
        outsideInput.pre_frame_result.length ∧
      (estimateInThread stdExternal (startNode true) outsideInput).1.faces.map
          (fun f => f._location) =
        outsideInput.pre_frame_result.map
          (fun d => d.location.inter
            ⟨0, 0, (startNode true).frameWidth_, (startNode true).frameHeight_⟩) ∧
      (inferFaces stdExternal (startNode true) outsideInput).detectionMsg.length =
        (startNode true).detectionMsg.length + outsideInput.pre_frame_result.length ∧
      (∀ (mf : Rect → List Face → Option Face) (cm : Rect → F32),
        estimateInThread { stdExternal with matchFace := mf } (startNode true)
            { outsideInput with calcMean := cm } =
          estimateInThread stdExternal (startNode true) outsideInput)) :=
  ⟨rfl, rfl, no_detection_skipped stdExternal (startNode true) outsideInput rfl rfl⟩

end InteractiveFace
